import Mathlib

/-!
A shallow embedding of the metric-comparison engine of the
equity-research-copilot web app, together with proofs of the spec claims.

The engine lives in `src/apps/web/src/pages/Compare.tsx` (delta calculator
`pctDelta`, formatter `fmt`, metric catalog `TABLE_KEYS`, table builder
`rows`, narrative generator `bullets`) and
`src/apps/web/src/pages/Ticker.tsx` (ratio derivation `gmRatio`,
`opMargin`, `netMargin`).

Modelling conventions:
* JavaScript numbers are modelled as exact rationals `ℚ`; a value that may
  be `undefined` is `Option ℚ`.  `ℚ` has no NaN or Infinity, which is
  adequate here because every division in the source is guarded by a
  zero test, so the guarded paths never produce NaN/Infinity at runtime
  on finite inputs.
* `Number.toFixed(digits)` and
  `Number.toLocaleString(undefined, { maximumFractionDigits })` are
  modelled by `toFixed` and `fmtNum` below: round to the requested number
  of decimal places (ties away from the lower value, as ECMA-262
  prescribes for `toFixed`, and half-away-from-zero for the locale
  formatter), then print.  `toFixed` pads to exactly `digits` fractional
  digits; the locale formatter treats `digits` as a maximum (it strips
  trailing fractional zeros) and groups the integer part in threes with
  commas (the en-US default grouping).
* Dates and metric keys are plain strings, compared literally, exactly as
  in the source.
-/

/-- One point of a metric time series (`type SeriesPoint`, Compare.tsx:6). -/
structure SeriesPoint where
  date : String
  value : ℚ

/-- One named metric time series (`type Series`, Compare.tsx:7); the
optional `unit` field plays no role in the engine and is omitted. -/
structure Series where
  key : String
  points : List SeriesPoint

/-- The store of metric series for one ticker
(`metricsQ.data?.series`). -/
abbrev SeriesStore := List Series

/-- Delta calculator `pctDelta` (Compare.tsx:9-12).  The source arguments
are named `from`/`to`; `from` is a Lean keyword so they are `f`/`t` here.
Returns `undefined` when either side is missing or the base is exactly
zero, else the relative change in percent. -/
def pctDelta (f t : Option ℚ) : Option ℚ :=
  match f, t with
  | some fv, some tv => if fv = 0 then none else some ((tv - fv) / fv * 100)
  | _, _ => none

/-- Left-pad a digit string with zeros up to length `d`. -/
def padZeros (s : String) (d : Nat) : String :=
  String.mk (List.replicate (d - s.length) '0') ++ s

/-- Print a natural number `m`, understood as a value scaled by `10 ^ d`,
with exactly `d` fractional digits. -/
def renderFixedNat (m : Nat) (d : Nat) : String :=
  if d = 0 then Nat.repr m
  else Nat.repr (m / 10 ^ d) ++ "." ++ padZeros (Nat.repr (m % 10 ^ d)) d

/-- Signed version of `renderFixedNat`. -/
def renderFixedInt (n : Int) (d : Nat) : String :=
  if n < 0 then "-" ++ renderFixedNat n.natAbs d else renderFixedNat n.toNat d

/-- Model of JavaScript `q.toFixed(d)`: round to the integer `n` with
`n / 10 ^ d` closest to `q` (on a tie the larger `n`, per ECMA-262), then
print with exactly `d` fractional digits. -/
def toFixed (q : ℚ) (d : Nat) : String :=
  renderFixedInt ⌊q * 10 ^ d + 1 / 2⌋ d

/-- Insert a comma after every third digit of a reversed digit list;
`k` counts the digits still allowed before the next comma. -/
def groupRev : Nat → List Char → List Char
  | _, [] => []
  | 0, c :: cs => ',' :: c :: groupRev 2 cs
  | Nat.succ k, c :: cs => c :: groupRev k cs

/-- Group a digit string in threes with commas, en-US style. -/
def groupDigits (s : String) : String :=
  String.mk (groupRev 3 s.toList.reverse).reverse

/-- Strip trailing zero characters. -/
def stripZerosRight (s : String) : String :=
  String.mk ((s.toList.reverse.dropWhile (fun c => c == '0')).reverse)

/-- Print a natural number `m`, understood as a value scaled by `10 ^ d`,
with at most `d` fractional digits (trailing zeros stripped) and the
integer part grouped in threes. -/
def renderLocale (m : Nat) (d : Nat) : String :=
  let ip := groupDigits (Nat.repr (m / 10 ^ d))
  let fp := stripZerosRight (padZeros (Nat.repr (m % 10 ^ d)) d)
  if fp = "" then ip else ip ++ "." ++ fp

/-- Model of
`q.toLocaleString(undefined, { maximumFractionDigits: d })`:
round half away from zero to `d` places, print with trailing fractional
zeros stripped and thousands grouping. -/
def fmtNum (q : ℚ) (d : Nat) : String :=
  (if q < 0 then "-" else "") ++ renderLocale (⌊|q| * 10 ^ d + 1 / 2⌋).toNat d

/-- Formatter `fmt` (Compare.tsx:13-16).  The source also maps `NaN` to
an em dash; `ℚ` has no NaN, so only the `undefined` branch remains. -/
def fmt (n : Option ℚ) (digits : Nat) : String :=
  match n with
  | none => "—"
  | some q => fmtNum q digits

/-- Static metric descriptor (the element type of `METRICS` and
`TABLE_KEYS`, Compare.tsx:43,65).  `digits` defaults to 0 (the `fmt`
default) and `asPct` to false, matching the omitted optional fields. -/
structure MetricSpec where
  key : String
  label : String
  digits : Nat := 0
  asPct : Bool := false

/-- The revenue entry of the catalog (Compare.tsx:66). -/
def revSpec : MetricSpec := { key := "revenue", label := "Revenue ($m)" }

/-- The gross-margin entry of the catalog (Compare.tsx:67) — the only
ratio metric (`asPct: true`), displayed with one decimal digit. -/
def gmSpec : MetricSpec :=
  { key := "gm", label := "Gross Margin (%)", digits := 1, asPct := true }

/-- The diluted-EPS entry of the catalog (Compare.tsx:68). -/
def epsSpec : MetricSpec :=
  { key := "eps_diluted", label := "EPS (diluted, $/sh)", digits := 2 }

/-- The assets entry of the catalog (Compare.tsx:69). -/
def astSpec : MetricSpec := { key := "assets", label := "Assets ($m)" }

/-- The liabilities entry of the catalog (Compare.tsx:70). -/
def liSpec : MetricSpec := { key := "liabilities", label := "Liabilities ($m)" }

/-- The operating-income entry of the catalog (Compare.tsx:71). -/
def oiSpec : MetricSpec :=
  { key := "operating_income", label := "Operating Inc. ($m)" }

/-- The net-income entry of the catalog (Compare.tsx:72). -/
def niSpec : MetricSpec := { key := "net_income", label := "Net Income ($m)" }

/-- The equity entry of the catalog (Compare.tsx:73). -/
def eqSpec : MetricSpec := { key := "equity", label := "Equity ($m)" }

/-- The fixed ordered metric catalog `TABLE_KEYS` (Compare.tsx:65-74), in
source order: revenue, gross margin, diluted EPS, assets, liabilities,
operating income, net income, equity. -/
def TABLE_KEYS : List MetricSpec :=
  [revSpec, gmSpec, epsSpec, astSpec, liSpec, oiSpec, niSpec, eqSpec]

/-- Metric lookup `valAt` (Compare.tsx:57-62; the identical helper also
appears in Ticker.tsx:58-63): undefined when the date is missing,
otherwise the value of the point with that exact date in the series with
that exact key. -/
def valAt (store : SeriesStore) (key : String) (d : Option String) : Option ℚ :=
  match d with
  | none => none
  | some dv =>
    let s := (((store.find? (fun x => x.key == key)).map Series.points).getD [])
    (s.find? (fun pt => pt.date == dv)).map SeriesPoint.value

/-- One comparison row: the spread `{ ...k, l, r, d, dpct }`
(Compare.tsx:83). -/
structure Row extends MetricSpec where
  l : Option ℚ
  r : Option ℚ
  d : Option ℚ
  dpct : Option ℚ

/-- The absolute delta `(l != null && r != null) ? (r - l) : undefined`
(Compare.tsx:81). -/
def absDelta (l r : Option ℚ) : Option ℚ :=
  match l, r with
  | some lv, some rv => some (rv - lv)
  | _, _ => none

/-- The body of the `TABLE_KEYS.map` callback building one comparison row
(Compare.tsx:76-84): scale both sides by 100 for ratio metrics, then take
the absolute and percent deltas. -/
def mkRow (store : SeriesStore) (leftDate rightDate : Option String)
    (k : MetricSpec) : Row :=
  let lRaw := valAt store k.key leftDate
  let rRaw := valAt store k.key rightDate
  let l := if k.asPct then lRaw.map (fun x => x * 100) else lRaw
  let r := if k.asPct then rRaw.map (fun x => x * 100) else rRaw
  { k with l := l, r := r, d := absDelta l r, dpct := pctDelta l r }

/-- The comparison table `rows` (Compare.tsx:76-84). -/
def rows (store : SeriesStore) (leftDate rightDate : Option String) : List Row :=
  TABLE_KEYS.map (mkRow store leftDate rightDate)

/-- The sign marker `x.d! >= 0 ? "+" : ""` used inside the narrative
templates; in JavaScript `undefined >= 0` is false, so a missing delta
yields the empty marker. -/
def plusSign (o : Option ℚ) : String :=
  match o with
  | some dv => if dv ≥ 0 then "+" else ""
  | none => ""

/-- The revenue narrative template (Compare.tsx:109), with `p` the
(defined) percent delta of the row. -/
def revenueSentence (row : Row) (p : ℚ) : String :=
  "Revenue " ++ (if p ≥ 0 then "increased" else "decreased") ++ " " ++
    toFixed |p| 1 ++ "% (" ++ plusSign row.d ++ fmt row.d 0 ++ "), from " ++
    fmt row.l 0 ++ " to " ++ fmt row.r 0 ++ "."

/-- The gross-margin narrative template (Compare.tsx:110), with `dv` the
(defined) absolute delta of the row; the direction test in the source is
`(gm.d ?? 0) >= 0`, which equals `dv >= 0` here since `d` is defined. -/
def gmSentence (row : Row) (dv : ℚ) : String :=
  "Gross margin " ++ (if dv ≥ 0 then "expanded" else "contracted") ++ " " ++
    toFixed |dv| 1 ++ " p.p., from " ++ fmt row.l 1 ++ "% to " ++
    fmt row.r 1 ++ "%."

/-- The diluted-EPS narrative template (Compare.tsx:111). -/
def epsSentence (row : Row) (p : ℚ) : String :=
  "EPS (diluted) " ++ (if p ≥ 0 then "rose" else "fell") ++ " " ++
    toFixed |p| 1 ++ "%, from " ++ fmt row.l 2 ++ " to " ++ fmt row.r 2 ++ "."

/-- The operating-income narrative template (Compare.tsx:112). -/
def oiSentence (row : Row) (p : ℚ) : String :=
  "Operating income " ++ (if p ≥ 0 then "up" else "down") ++ " " ++
    toFixed |p| 1 ++ "% (" ++ plusSign row.d ++ fmt row.d 0 ++ ")."

/-- The net-income narrative template (Compare.tsx:113). -/
def niSentence (row : Row) (p : ℚ) : String :=
  "Net income " ++ (if p ≥ 0 then "improved" else "declined") ++ " " ++
    toFixed |p| 1 ++ "% (" ++ plusSign row.d ++ fmt row.d 0 ++ ")."

/-- The assets narrative template (Compare.tsx:114). -/
def astSentence (p : ℚ) : String :=
  "Assets " ++ (if p ≥ 0 then "grew" else "declined") ++ " " ++
    toFixed |p| 1 ++ "%."

/-- The liabilities narrative template (Compare.tsx:115). -/
def liSentence (p : ℚ) : String :=
  "Liabilities " ++ (if p ≥ 0 then "increased" else "decreased") ++ " " ++
    toFixed |p| 1 ++ "%."

/-- The equity narrative template (Compare.tsx:116). -/
def eqSentence (p : ℚ) : String :=
  "Equity " ++ (if p ≥ 0 then "expanded" else "contracted") ++ " " ++
    toFixed |p| 1 ++ "%."

/-- One guarded push of the narrative generator,
`if (x?.field != null) out.push(sentence)` (Compare.tsx:109-116): the
found row contributes its sentence exactly when the selected guarding
delta field is defined. -/
def narrativeSeg (o : Option Row) (sel : Row → Option ℚ)
    (sentence : Row → ℚ → String) : List String :=
  match o with
  | some row =>
    match sel row with
    | some p => [sentence row p]
    | none => []
  | none => []

/-- The narrative generator `bullets` (Compare.tsx:101-118).  The
`if (!ready) return []` guard of the source requires both period-end
dates (and both accession ids, which play no further role in the
computation and are not modelled); each metric then contributes one
sentence exactly when its guarding delta is defined, in the source's
push order: revenue, gross margin, EPS, operating income, net income,
assets, liabilities, equity.  Every guard reads `dpct` except gross
margin, whose guard and sentence read the absolute delta `d`. -/
def bullets (store : SeriesStore) (leftDate rightDate : Option String) :
    List String :=
  match leftDate, rightDate with
  | some _, some _ =>
    let rs := rows store leftDate rightDate
    narrativeSeg (rs.find? (fun r => r.key == "revenue")) Row.dpct
        revenueSentence ++
    narrativeSeg (rs.find? (fun r => r.key == "gm")) Row.d gmSentence ++
    narrativeSeg (rs.find? (fun r => r.key == "eps_diluted")) Row.dpct
        epsSentence ++
    narrativeSeg (rs.find? (fun r => r.key == "operating_income")) Row.dpct
        oiSentence ++
    narrativeSeg (rs.find? (fun r => r.key == "net_income")) Row.dpct
        niSentence ++
    narrativeSeg (rs.find? (fun r => r.key == "assets")) Row.dpct
        (fun _ p => astSentence p) ++
    narrativeSeg (rs.find? (fun r => r.key == "liabilities")) Row.dpct
        (fun _ p => liSentence p) ++
    narrativeSeg (rs.find? (fun r => r.key == "equity")) Row.dpct
        (fun _ p => eqSentence p)
  | _, _ => []

/-- The guarded division pattern shared by the three margin derivations
of Ticker.tsx:83-87, `(num != null && den) ? num / den : undefined`: the
truthiness test on the denominator makes the ratio undefined when the
denominator is missing or zero, and the `!= null` test when the
numerator is missing. -/
def jsDivGuard (num den : Option ℚ) : Option ℚ :=
  match num, den with
  | some x, some y => if y = 0 then none else some (x / y)
  | _, _ => none

/-- Gross-margin derivation `gmRatio` (Ticker.tsx:81-83):
`(gp != null && rev) ? gp / rev : undefined`. -/
def gmRatio (store : SeriesStore) (selectedDate : Option String) : Option ℚ :=
  jsDivGuard (valAt store "gross_profit" selectedDate)
    (valAt store "revenue" selectedDate)

/-- Operating-margin derivation `opMargin` (Ticker.tsx:84,86):
`(oi != null && rev) ? (oi / rev) : undefined`. -/
def opMargin (store : SeriesStore) (selectedDate : Option String) : Option ℚ :=
  jsDivGuard (valAt store "operating_income" selectedDate)
    (valAt store "revenue" selectedDate)

/-- Net-margin derivation `netMargin` (Ticker.tsx:85,87):
`(ni != null && rev) ? (ni / rev) : undefined`. -/
def netMargin (store : SeriesStore) (selectedDate : Option String) : Option ℚ :=
  jsDivGuard (valAt store "net_income" selectedDate)
    (valAt store "revenue" selectedDate)

/-! ### Concrete inputs used by witnesses and counterexamples -/

/-- Left period-end date used in the concrete scenarios. -/
def dA : String := "2022-09-24"

/-- Right period-end date used in the concrete scenarios. -/
def dB : String := "2023-09-30"

/-- Build a two-point series with one value at each scenario date. -/
def twoPoints (key : String) (va vb : ℚ) : Series :=
  ⟨key, [⟨dA, va⟩, ⟨dB, vb⟩]⟩

/-- Store for the revenue scenario: 100 at the left period, 120 at the
right. -/
def revStore : SeriesStore := [twoPoints "revenue" 100 120]

/-! ### The narrative order, abstracted

`narrativeFor` gives, for one metric key, the sentence the narrative
generator would contribute for that key (reading the same row list), and
`NARRATIVE_KEYS` is the order in which `bullets` emits them.  These are
the specification-side descriptions used to state and settle the ordering
claim.  Note the order differs from the catalog `TABLE_KEYS`: the
narrative emits operating income and net income before assets and
liabilities. -/

/-- The emission order of the narrative generator (the push order of
Compare.tsx:109-116). -/
def NARRATIVE_KEYS : List String :=
  ["revenue", "gm", "eps_diluted", "operating_income", "net_income",
   "assets", "liabilities", "equity"]

/-- The sentence contributed by one metric key, if its guarding delta is
defined in the given row list. -/
def narrativeFor (rs : List Row) (k : String) : Option String :=
  match k with
  | "revenue" =>
    (rs.find? (fun r => r.key == "revenue")).bind
      (fun row => row.dpct.map (revenueSentence row))
  | "gm" =>
    (rs.find? (fun r => r.key == "gm")).bind
      (fun row => row.d.map (gmSentence row))
  | "eps_diluted" =>
    (rs.find? (fun r => r.key == "eps_diluted")).bind
      (fun row => row.dpct.map (epsSentence row))
  | "operating_income" =>
    (rs.find? (fun r => r.key == "operating_income")).bind
      (fun row => row.dpct.map (fun p => oiSentence row p))
  | "net_income" =>
    (rs.find? (fun r => r.key == "net_income")).bind
      (fun row => row.dpct.map (fun p => niSentence row p))
  | "assets" =>
    (rs.find? (fun r => r.key == "assets")).bind
      (fun row => row.dpct.map (fun p => astSentence p))
  | "liabilities" =>
    (rs.find? (fun r => r.key == "liabilities")).bind
      (fun row => row.dpct.map (fun p => liSentence p))
  | "equity" =>
    (rs.find? (fun r => r.key == "equity")).bind
      (fun row => row.dpct.map (fun p => eqSentence p))
  | _ => none

/-! ### Further concrete stores -/

/-- Store for the falling gross-margin scenario: raw fractions 0.40 at
the left period and 0.375 at the right. -/
def gmDownStore : SeriesStore := [twoPoints "gm" (2/5) (3/8)]

/-- Store for the rising gross-margin scenario: raw fractions 0.400 at
the left period and 0.425 at the right. -/
def gmUpStore : SeriesStore := [twoPoints "gm" (2/5) (17/40)]

/-- Store with operating income (100 to 110) and assets (200 to 220)
defined, everything else missing. -/
def oiAstStore : SeriesStore :=
  [twoPoints "operating_income" 100 110, twoPoints "assets" 200 220]

/-- Store whose revenue is exactly zero at the left period. -/
def zeroStore : SeriesStore := [twoPoints "revenue" 0 50]

/-- Store whose revenue exists only at the left period. -/
def halfStore : SeriesStore := [⟨"revenue", [⟨dA, 100⟩]⟩]

/-- Ticker-page store with zero revenue and a defined gross profit at the
left period. -/
def tkStore : SeriesStore :=
  [twoPoints "revenue" 0 50, twoPoints "gross_profit" 10 20]

/-- Test of literal evaluation. -/
theorem valAt_revStore : valAt revStore "revenue" (some dA) = some 100 := rfl

/-- Test of empty lookup. -/
theorem valAt_revStore_gm : valAt revStore "gm" (some dA) = none := rfl

/-! ### Basic lemmas about the delta calculator and row builder -/

/-- The percent delta at a defined nonzero base is the relative change. -/
theorem pctDelta_some (a b : ℚ) (h : a ≠ 0) :
    pctDelta (some a) (some b) = some ((b - a) / a * 100) := by
  simp [pctDelta, h]

/-- The percent delta at base zero is undefined. -/
theorem pctDelta_base_zero (t : Option ℚ) : pctDelta (some 0) t = none := by
  cases t <;> simp [pctDelta]

/-- The row builder keeps the metric descriptor intact. -/
theorem mkRow_toSpec (store : SeriesStore) (ld rd : Option String)
    (k : MetricSpec) : (mkRow store ld rd k).toMetricSpec = k := rfl

/-- The left value of a row is the (possibly scaled) left lookup. -/
theorem mkRow_l (store : SeriesStore) (ld rd : Option String) (k : MetricSpec) :
    (mkRow store ld rd k).l =
      if k.asPct then (valAt store k.key ld).map (fun x => x * 100)
      else valAt store k.key ld := rfl

/-- The right value of a row is the (possibly scaled) right lookup. -/
theorem mkRow_r (store : SeriesStore) (ld rd : Option String) (k : MetricSpec) :
    (mkRow store ld rd k).r =
      if k.asPct then (valAt store k.key rd).map (fun x => x * 100)
      else valAt store k.key rd := rfl

/-- The absolute delta of a row is the difference of its two values when
both are defined, otherwise undefined. -/
theorem mkRow_d (store : SeriesStore) (ld rd : Option String) (k : MetricSpec) :
    (mkRow store ld rd k).d =
      absDelta (mkRow store ld rd k).l (mkRow store ld rd k).r := rfl

/-- The percent delta of a row is `pctDelta` of its two values. -/
theorem mkRow_dpct (store : SeriesStore) (ld rd : Option String)
    (k : MetricSpec) :
    (mkRow store ld rd k).dpct =
      pctDelta (mkRow store ld rd k).l (mkRow store ld rd k).r := rfl

/-- Concrete evaluation of the right revenue lookup. -/
theorem valAt_revStore_B : valAt revStore "revenue" (some dB) = some 120 := rfl

/-- Concrete evaluation of the revenue row of the revenue scenario. -/
theorem revRow_eval :
    mkRow revStore (some dA) (some dB) revSpec =
      { key := "revenue", label := "Revenue ($m)", l := some 100, r := some 120,
        d := some 20, dpct := some 20 } := by
  norm_num [mkRow, pctDelta, absDelta, revSpec, valAt_revStore, valAt_revStore_B]

/-! ### Evaluation lemmas for the formatters -/

/-- Reduce `toFixed` once the scaled floor has been computed. -/
theorem toFixed_eval (q : ℚ) (d : Nat) (n : Int)
    (h : ⌊q * 10 ^ d + 1 / 2⌋ = n) : toFixed q d = renderFixedInt n d := by
  unfold toFixed; rw [h]

/-- Reduce `fmtNum` on a nonnegative value once the scaled floor has been
computed. -/
theorem fmtNum_eval (q : ℚ) (d : Nat) (n : Int) (hq : 0 ≤ q)
    (h : ⌊q * 10 ^ d + 1 / 2⌋ = n) :
    fmtNum q d = renderLocale n.toNat d := by
  unfold fmtNum
  rw [if_neg (not_lt.mpr hq), abs_of_nonneg hq, h, String.empty_append]

/-- Sample formatter evaluations. -/
theorem toFixed_20 : toFixed 20 1 = "20.0" := by
  rw [toFixed_eval 20 1 200 (by norm_num)]; decide

/-- Sample locale-formatter evaluation. -/
theorem fmtNum_20 : fmtNum 20 0 = "20" := by
  rw [fmtNum_eval 20 0 20 (by norm_num) (by norm_num)]; decide

/-- Sample locale-formatter evaluation with a stripped trailing zero. -/
theorem fmtNum_40 : fmtNum 40 1 = "40" := by
  rw [fmtNum_eval 40 1 400 (by norm_num) (by norm_num)]; decide

/-- Sample locale-formatter evaluation keeping one fractional digit. -/
theorem fmtNum_37_5 : fmtNum (75 / 2) 1 = "37.5" := by
  rw [fmtNum_eval (75 / 2) 1 375 (by norm_num) (by norm_num)]; decide

/-- Sample grouping evaluation: the locale formatter groups thousands. -/
theorem fmtNum_grouping : fmtNum 1234567 0 = "1,234,567" := by
  rw [fmtNum_eval 1234567 0 1234567 (by norm_num) (by norm_num)]; decide

/-! ### Reduction lemmas for the narrative machinery -/

/-- A guarded narrative push is the option-to-list coercion of the
selected sentence. -/
theorem narrativeSeg_toList (o : Option Row) (sel : Row → Option ℚ)
    (sentence : Row → ℚ → String) :
    narrativeSeg o sel sentence =
      (o.bind (fun row => (sel row).map (sentence row))).toList := by
  cases o with
  | none => rfl
  | some row => cases h : sel row <;> simp [narrativeSeg, h]

/-- Unfold one step of `filterMap` into an option-to-list append. -/
theorem filterMap_cons_toList {α β : Type} (f : α → Option β) (a : α)
    (l : List α) :
    List.filterMap f (a :: l) = (f a).toList ++ List.filterMap f l := by
  cases h : f a <;> simp [h]

/-- The comparison table always finds its revenue row: it is the row the
builder produced for the revenue catalog entry. -/
theorem find_rev (store : SeriesStore) (ld rd : Option String) :
    (rows store ld rd).find? (fun r => r.key == "revenue") =
      some (mkRow store ld rd revSpec) := rfl

/-- The table lookup for the gross-margin row. -/
theorem find_gm (store : SeriesStore) (ld rd : Option String) :
    (rows store ld rd).find? (fun r => r.key == "gm") =
      some (mkRow store ld rd gmSpec) := rfl

/-- The table lookup for the diluted-EPS row. -/
theorem find_eps (store : SeriesStore) (ld rd : Option String) :
    (rows store ld rd).find? (fun r => r.key == "eps_diluted") =
      some (mkRow store ld rd epsSpec) := rfl

/-- The table lookup for the assets row. -/
theorem find_ast (store : SeriesStore) (ld rd : Option String) :
    (rows store ld rd).find? (fun r => r.key == "assets") =
      some (mkRow store ld rd astSpec) := rfl

/-- The table lookup for the liabilities row. -/
theorem find_li (store : SeriesStore) (ld rd : Option String) :
    (rows store ld rd).find? (fun r => r.key == "liabilities") =
      some (mkRow store ld rd liSpec) := rfl

/-- The table lookup for the operating-income row. -/
theorem find_oi (store : SeriesStore) (ld rd : Option String) :
    (rows store ld rd).find? (fun r => r.key == "operating_income") =
      some (mkRow store ld rd oiSpec) := rfl

/-- The table lookup for the net-income row. -/
theorem find_ni (store : SeriesStore) (ld rd : Option String) :
    (rows store ld rd).find? (fun r => r.key == "net_income") =
      some (mkRow store ld rd niSpec) := rfl

/-- The table lookup for the equity row. -/
theorem find_eq (store : SeriesStore) (ld rd : Option String) :
    (rows store ld rd).find? (fun r => r.key == "equity") =
      some (mkRow store ld rd eqSpec) := rfl

/-- Claim C1 (corrected).  For every input store and pair of period-end
dates, the narrative generator emits its sentences in the fixed order
`NARRATIVE_KEYS` — revenue, gross margin, diluted EPS, operating income,
net income, assets, liabilities, equity — one sentence per metric with a
defined guarding delta, never reordered by magnitude or significance.
This order is deterministic but is NOT the catalog (`TABLE_KEYS`) order,
which lists assets and liabilities before operating income and net
income; the original claim is refuted by `C1_counterexample`. -/
theorem C1_narrative_fixed_order (store : SeriesStore) (ld rd : String) :
    bullets store (some ld) (some rd) =
      List.filterMap (narrativeFor (rows store (some ld) (some rd)))
        NARRATIVE_KEYS := by
  simp only [bullets, NARRATIVE_KEYS]
  rw [filterMap_cons_toList, filterMap_cons_toList, filterMap_cons_toList,
    filterMap_cons_toList, filterMap_cons_toList, filterMap_cons_toList,
    filterMap_cons_toList, filterMap_cons_toList]
  simp only [List.filterMap_nil, List.append_nil, narrativeFor,
    narrativeSeg_toList, List.append_assoc]

/-- Evaluation of the revenue sentence on the revenue-scenario row. -/
theorem revenueSentence_eval100 :
    revenueSentence
      { key := "revenue", label := "Revenue ($m)", l := some 100,
        r := some 120, d := some 20, dpct := some 20 } 20 =
      "Revenue increased 20.0% (+20), from 100 to 120." := by
  have h1 : toFixed |(20 : ℚ)| 1 = "20.0" := by
    rw [abs_of_nonneg (by norm_num : (0:ℚ) ≤ 20),
      toFixed_eval 20 1 200 (by norm_num)]
    decide
  have h2 : fmtNum (20 : ℚ) 0 = "20" := by
    rw [fmtNum_eval 20 0 20 (by norm_num) (by norm_num)]; decide
  have h3 : fmtNum (100 : ℚ) 0 = "100" := by
    rw [fmtNum_eval 100 0 100 (by norm_num) (by norm_num)]; decide
  have h4 : fmtNum (120 : ℚ) 0 = "120" := by
    rw [fmtNum_eval 120 0 120 (by norm_num) (by norm_num)]; decide
  simp only [revenueSentence, plusSign, fmt, h1, h2, h3, h4,
    if_pos (by norm_num : (20:ℚ) ≥ 0)]
  decide

/-- The full narrative for the revenue scenario. -/
theorem bullets_revStore :
    bullets revStore (some dA) (some dB) =
      ["Revenue increased 20.0% (+20), from 100 to 120."] := by
  have h0 : bullets revStore (some dA) (some dB) =
      [revenueSentence (mkRow revStore (some dA) (some dB) revSpec)
        ((120 - 100) / 100 * 100)] := rfl
  rw [h0, revRow_eval]
  norm_num [revenueSentence_eval100]

/-- Lookup facts for the gross-margin stores. -/
theorem valAt_gmDown_A : valAt gmDownStore "gm" (some dA) = some (2/5) := rfl

/-- Right lookup of the falling gross-margin store. -/
theorem valAt_gmDown_B : valAt gmDownStore "gm" (some dB) = some (3/8) := rfl

/-- Left lookup of the rising gross-margin store. -/
theorem valAt_gmUp_A : valAt gmUpStore "gm" (some dA) = some (2/5) := rfl

/-- Right lookup of the rising gross-margin store. -/
theorem valAt_gmUp_B : valAt gmUpStore "gm" (some dB) = some (17/40) := rfl

/-- Left lookup of the operating-income series. -/
theorem valAt_oiAst_oi_A :
    valAt oiAstStore "operating_income" (some dA) = some 100 := rfl

/-- Right lookup of the operating-income series. -/
theorem valAt_oiAst_oi_B :
    valAt oiAstStore "operating_income" (some dB) = some 110 := rfl

/-- Left lookup of the assets series. -/
theorem valAt_oiAst_ast_A : valAt oiAstStore "assets" (some dA) = some 200 := rfl

/-- Right lookup of the assets series. -/
theorem valAt_oiAst_ast_B : valAt oiAstStore "assets" (some dB) = some 220 := rfl

/-- Reverse-orientation evaluation of the revenue row (right period on
the left). -/
theorem revRow_eval_BA :
    mkRow revStore (some dB) (some dA) revSpec =
      { key := "revenue", label := "Revenue ($m)", l := some 120, r := some 100,
        d := some (-20), dpct := some (-(50/3)) } := by
  norm_num [mkRow, pctDelta, absDelta, revSpec, valAt_revStore, valAt_revStore_B]

/-- Evaluation of the gross-margin row of the falling scenario: the raw
fractions are scaled to 40 and 37.5 and the absolute delta is the
percentage-point difference -2.5; the percent delta is the relative
change -6.25. -/
theorem gmRowDown_eval :
    mkRow gmDownStore (some dA) (some dB) gmSpec =
      { key := "gm", label := "Gross Margin (%)", digits := 1, asPct := true,
        l := some 40, r := some (75/2), d := some (-(5/2)),
        dpct := some (-(25/4)) } := by
  norm_num [mkRow, pctDelta, absDelta, gmSpec, valAt_gmDown_A, valAt_gmDown_B]

/-- Evaluation of the gross-margin row of the rising scenario: scaled
values 40 and 42.5, absolute delta 2.5 percentage points, percent delta
6.25 (the relative change). -/
theorem gmRowUp_eval :
    mkRow gmUpStore (some dA) (some dB) gmSpec =
      { key := "gm", label := "Gross Margin (%)", digits := 1, asPct := true,
        l := some 40, r := some (85/2), d := some (5/2),
        dpct := some (25/4) } := by
  norm_num [mkRow, pctDelta, absDelta, gmSpec, valAt_gmUp_A, valAt_gmUp_B]

/-- Evaluation of the operating-income row of the two-metric store. -/
theorem oiRow_eval :
    mkRow oiAstStore (some dA) (some dB) oiSpec =
      { key := "operating_income", label := "Operating Inc. ($m)",
        l := some 100, r := some 110, d := some 10, dpct := some 10 } := by
  norm_num [mkRow, pctDelta, absDelta, oiSpec, valAt_oiAst_oi_A, valAt_oiAst_oi_B]

/-- Evaluation of the assets row of the two-metric store. -/
theorem astRow_eval :
    mkRow oiAstStore (some dA) (some dB) astSpec =
      { key := "assets", label := "Assets ($m)",
        l := some 200, r := some 220, d := some 20, dpct := some 10 } := by
  norm_num [mkRow, pctDelta, absDelta, astSpec, valAt_oiAst_ast_A, valAt_oiAst_ast_B]

/-! ### Concrete narrative evaluations -/

/-- Evaluation of the gross-margin sentence on the falling-margin row:
note the locale formatter prints the left value 40 as "40" (it caps, not
pads, fraction digits), while `toFixed` pads the delta to "2.5". -/
theorem gmSentence_eval_down :
    gmSentence
      { key := "gm", label := "Gross Margin (%)", digits := 1, asPct := true,
        l := some 40, r := some (75/2), d := some (-(5/2)),
        dpct := some (-(25/4)) } (3 / 8 * 100 - 2 / 5 * 100) =
      "Gross margin contracted 2.5 p.p., from 40% to 37.5%." := by
  have h1 : toFixed |(3 / 8 * 100 - 2 / 5 * 100 : ℚ)| 1 = "2.5" := by
    rw [show |(3 / 8 * 100 - 2 / 5 * 100 : ℚ)| = 5 / 2 by
        rw [abs_of_nonpos (by norm_num)]; norm_num,
      toFixed_eval (5/2) 1 25 (by norm_num)]
    decide
  simp only [gmSentence, fmt, h1, fmtNum_40, fmtNum_37_5,
    if_neg (by norm_num : ¬ (3 / 8 * 100 - 2 / 5 * 100 : ℚ) ≥ 0)]
  decide

/-- The full narrative for the falling gross-margin scenario. -/
theorem bullets_gmDownStore :
    bullets gmDownStore (some dA) (some dB) =
      ["Gross margin contracted 2.5 p.p., from 40% to 37.5%."] := by
  have h0 : bullets gmDownStore (some dA) (some dB) =
      [gmSentence (mkRow gmDownStore (some dA) (some dB) gmSpec)
        (3 / 8 * 100 - 2 / 5 * 100)] := rfl
  rw [h0, gmRowDown_eval, gmSentence_eval_down]

/-- Evaluation of the operating-income sentence on its concrete row. -/
theorem oiSentence_eval10 :
    oiSentence
      { key := "operating_income", label := "Operating Inc. ($m)",
        l := some 100, r := some 110, d := some 10, dpct := some 10 }
      ((110 - 100) / 100 * 100) =
      "Operating income up 10.0% (+10)." := by
  have h1 : toFixed |((110 - 100) / 100 * 100 : ℚ)| 1 = "10.0" := by
    rw [show |((110 - 100) / 100 * 100 : ℚ)| = 10 by
        rw [abs_of_nonneg (by norm_num)]; norm_num,
      toFixed_eval 10 1 100 (by norm_num)]
    decide
  have h2 : fmtNum (10 : ℚ) 0 = "10" := by
    rw [fmtNum_eval 10 0 10 (by norm_num) (by norm_num)]; decide
  simp only [oiSentence, plusSign, fmt, h1, h2,
    if_pos (by norm_num : ((110 - 100) / 100 * 100 : ℚ) ≥ 0),
    if_pos (by norm_num : (10 : ℚ) ≥ 0)]
  decide

/-- Evaluation of the assets sentence on its concrete percent delta. -/
theorem astSentence_eval10 :
    astSentence ((220 - 200) / 200 * 100) = "Assets grew 10.0%." := by
  have h1 : toFixed |((220 - 200) / 200 * 100 : ℚ)| 1 = "10.0" := by
    rw [show |((220 - 200) / 200 * 100 : ℚ)| = 10 by
        rw [abs_of_nonneg (by norm_num)]; norm_num,
      toFixed_eval 10 1 100 (by norm_num)]
    decide
  simp only [astSentence, h1,
    if_pos (by norm_num : ((220 - 200) / 200 * 100 : ℚ) ≥ 0)]
  decide

/-- The narrative for the two-metric store: the operating-income sentence
comes first, before the assets sentence, although assets precede
operating income in the catalog `TABLE_KEYS`. -/
theorem bullets_oiAstStore :
    bullets oiAstStore (some dA) (some dB) =
      ["Operating income up 10.0% (+10).", "Assets grew 10.0%."] := by
  have h0 : bullets oiAstStore (some dA) (some dB) =
      [oiSentence (mkRow oiAstStore (some dA) (some dB) oiSpec)
        ((110 - 100) / 100 * 100),
       astSentence ((220 - 200) / 200 * 100)] := rfl
  rw [h0, oiRow_eval, oiSentence_eval10, astSentence_eval10]

/-- The same rows traversed in catalog (`TABLE_KEYS`) order would put the
assets sentence first. -/
theorem filterMap_oiAstStore_catalog :
    List.filterMap (narrativeFor (rows oiAstStore (some dA) (some dB)))
        (TABLE_KEYS.map MetricSpec.key) =
      ["Assets grew 10.0%.", "Operating income up 10.0% (+10)."] := by
  have h0 : List.filterMap (narrativeFor (rows oiAstStore (some dA) (some dB)))
        (TABLE_KEYS.map MetricSpec.key) =
      [astSentence ((220 - 200) / 200 * 100),
       oiSentence (mkRow oiAstStore (some dA) (some dB) oiSpec)
        ((110 - 100) / 100 * 100)] := rfl
  rw [h0, oiRow_eval, oiSentence_eval10, astSentence_eval10]

/-! ### Remaining helper lemmas -/

/-- The percent delta with an undefined base is undefined. -/
theorem pctDelta_left_none (t : Option ℚ) : pctDelta none t = none := rfl

/-- The percent delta with an undefined target is undefined. -/
theorem pctDelta_right_none (f : Option ℚ) : pctDelta f none = none := by
  cases f <;> rfl

/-- The absolute delta of two defined values. -/
theorem absDelta_some (a b : ℚ) : absDelta (some a) (some b) = some (b - a) := rfl

/-- The absolute delta with an undefined left value is undefined. -/
theorem absDelta_left_none (r : Option ℚ) : absDelta none r = none := by
  cases r <;> rfl

/-- The absolute delta with an undefined right value is undefined. -/
theorem absDelta_right_none (l : Option ℚ) : absDelta l none = none := by
  cases l <;> rfl

/-- Core antisymmetry of the guarded difference: the two orientations of
`(l != null && r != null) ? (r - l) : undefined` are negations whenever
both are defined. -/
theorem absDelta_antisymm_core (u v : Option ℚ) (a b : ℚ)
    (h1 : absDelta u v = some a) (h2 : absDelta v u = some b) : a = -b := by
  cases u <;> cases v <;> simp_all [absDelta]
  linarith

/-- The guarded division is undefined exactly when the numerator is
missing, the denominator is missing, or the denominator is zero. -/
theorem jsDivGuard_none_iff (num den : Option ℚ) :
    jsDivGuard num den = none ↔
      num = none ∨ den = none ∨ den = some 0 := by
  cases num with
  | none => simp [jsDivGuard]
  | some x =>
    cases den with
    | none => simp [jsDivGuard]
    | some y => by_cases hy : y = 0 <;> simp [jsDivGuard, hy]

/-! ### Claim theorems -/

/-- Claim C1, counterexample.  With operating income and assets defined,
the narrative puts the operating-income sentence before the assets
sentence; traversing the same rows in catalog (`TABLE_KEYS`) order would
put assets first, so the narrative is not in catalog order. -/
theorem C1_counterexample :
    bullets oiAstStore (some dA) (some dB) ≠
      List.filterMap (narrativeFor (rows oiAstStore (some dA) (some dB)))
        (TABLE_KEYS.map MetricSpec.key) := by
  rw [bullets_oiAstStore, filterMap_oiAstStore_catalog]
  decide

/-- Claim C2 (corrected), counterexample.  For the ratio metric gm with
raw fractions 0.400 and 0.425 (scaled values 40 and 42.5), the computed
percent delta is the relative change 6.25, not the percentage-point
difference 2.5 between the scaled values; the point difference is
carried by the absolute delta instead. -/
theorem C2_counterexample :
    (mkRow gmUpStore (some dA) (some dB) gmSpec).dpct ≠ some (85/2 - 40) ∧
    (mkRow gmUpStore (some dA) (some dB) gmSpec).dpct = some (25/4) ∧
    (mkRow gmUpStore (some dA) (some dB) gmSpec).l = some 40 ∧
    (mkRow gmUpStore (some dA) (some dB) gmSpec).r = some (85/2) := by
  rw [gmRowUp_eval]
  refine ⟨?_, rfl, rfl, rfl⟩
  simp only [ne_eq, Option.some.injEq]
  norm_num

/-- Claim C2 (corrected).  For every ratio metric row with both raw
values defined, the absolute delta is the percentage-point difference of
the ×100-scaled values, and the percent delta is the relative percentage
change of the raw values (the ×100 scaling cancels in it) — not a point
difference. -/
theorem C2_ratio_delta_semantics (store : SeriesStore) (ld rd : Option String)
    (k : MetricSpec) (hk : k.asPct = true) (a b : ℚ)
    (ha : valAt store k.key ld = some a) (hb : valAt store k.key rd = some b) :
    (mkRow store ld rd k).d = some (b * 100 - a * 100) ∧
      (a ≠ 0 → (mkRow store ld rd k).dpct = some ((b - a) / a * 100)) := by
  have hl : (mkRow store ld rd k).l = some (a * 100) := by
    rw [mkRow_l, hk, ha]; simp
  have hr : (mkRow store ld rd k).r = some (b * 100) := by
    rw [mkRow_r, hk, hb]; simp
  constructor
  · rw [mkRow_d, hl, hr, absDelta_some]
  · intro hne
    rw [mkRow_dpct, hl, hr,
      pctDelta_some _ _ (mul_ne_zero hne (by norm_num))]
    congr 1
    field_simp
    ring

/-- Claim C2, witness at the rising gross-margin scenario. -/
theorem C2_witness :
    (mkRow gmUpStore (some dA) (some dB) gmSpec).d =
        some (17/40 * 100 - 2/5 * 100) ∧
      (mkRow gmUpStore (some dA) (some dB) gmSpec).dpct =
        some ((17/40 - 2/5) / (2/5) * 100) :=
  ⟨(C2_ratio_delta_semantics gmUpStore (some dA) (some dB) gmSpec rfl
      (2/5) (17/40) rfl rfl).1,
   (C2_ratio_delta_semantics gmUpStore (some dA) (some dB) gmSpec rfl
      (2/5) (17/40) rfl rfl).2 (by norm_num)⟩

/-- Claim C3, counterexample.  The narrative for the falling gross-margin
scenario prints the left value as "40", not "40.0": the locale formatter
caps fraction digits instead of padding them, so the claimed exact
sentence does not occur. -/
theorem C3_counterexample :
    bullets gmDownStore (some dA) (some dB) ≠
      ["Gross margin contracted 2.5 p.p., from 40.0% to 37.5%."] := by
  rw [bullets_gmDownStore]
  decide

/-- Claim C3 (corrected).  For gross margin 0.40 to 0.375, the scaled
values are 40 and 37.5, displayed (with the metric's one-digit maximum
precision) as "40" and "37.5", the absolute delta is -2.5, and the
narrative sentence is exactly
"Gross margin contracted 2.5 p.p., from 40% to 37.5%." — `toFixed` pads
the delta to one decimal, while the locale formatter drops the trailing
zero of 40. -/
theorem C3_margin_scenario :
    bullets gmDownStore (some dA) (some dB) =
        ["Gross margin contracted 2.5 p.p., from 40% to 37.5%."] ∧
      fmt (mkRow gmDownStore (some dA) (some dB) gmSpec).l 1 = "40" ∧
      fmt (mkRow gmDownStore (some dA) (some dB) gmSpec).r 1 = "37.5" ∧
      (mkRow gmDownStore (some dA) (some dB) gmSpec).d = some (-(5/2)) := by
  refine ⟨bullets_gmDownStore, ?_, ?_, ?_⟩ <;> rw [gmRowDown_eval]
  · exact fmtNum_40
  · exact fmtNum_37_5

/-- Claim C4 (confirmed).  For every metric and pair of periods, if the
left (scaled) value is exactly 0 the percent delta is undefined — the
exact-rational model has no Infinity or NaN to produce — and if both
values are defined with a nonzero left value the percent delta is
`(right - left) / left * 100`. -/
theorem C4_zero_base_guard (store : SeriesStore) (ld rd : Option String)
    (k : MetricSpec) :
    ((mkRow store ld rd k).l = some 0 → (mkRow store ld rd k).dpct = none) ∧
    (∀ a b : ℚ, (mkRow store ld rd k).l = some a →
      (mkRow store ld rd k).r = some b → a ≠ 0 →
      (mkRow store ld rd k).dpct = some ((b - a) / a * 100)) := by
  constructor
  · intro h
    rw [mkRow_dpct, h, pctDelta_base_zero]
  · intro a b ha hb hne
    rw [mkRow_dpct, ha, hb, pctDelta_some a b hne]

/-- Claim C4, witness: revenue 0 to 50 yields an undefined percent delta;
revenue 100 to 120 yields the relative change. -/
theorem C4_witness :
    (mkRow zeroStore (some dA) (some dB) revSpec).dpct = none ∧
      (mkRow revStore (some dA) (some dB) revSpec).dpct =
        some ((120 - 100) / 100 * 100) :=
  ⟨(C4_zero_base_guard zeroStore (some dA) (some dB) revSpec).1 rfl,
   (C4_zero_base_guard revStore (some dA) (some dB) revSpec).2 100 120 rfl rfl
     (by norm_num)⟩

/-- Claim C5 (confirmed).  For every metric and pair of periods, if
either lookup is undefined then both the absolute and the percent delta
of the row are undefined; the computation is a total function, so no
input can raise an exception. -/
theorem C5_missing_value_propagates (store : SeriesStore)
    (ld rd : Option String) (k : MetricSpec)
    (h : valAt store k.key ld = none ∨ valAt store k.key rd = none) :
    (mkRow store ld rd k).d = none ∧ (mkRow store ld rd k).dpct = none := by
  rcases h with h | h
  · have hl : (mkRow store ld rd k).l = none := by
      rw [mkRow_l, h]; cases k.asPct <;> simp
    constructor
    · rw [mkRow_d, hl, absDelta_left_none]
    · rw [mkRow_dpct, hl, pctDelta_left_none]
  · have hr : (mkRow store ld rd k).r = none := by
      rw [mkRow_r, h]; cases k.asPct <;> simp
    constructor
    · rw [mkRow_d, hr, absDelta_right_none]
    · rw [mkRow_dpct, hr, pctDelta_right_none]

/-- Claim C5, witness: a store whose revenue exists only at the left
period produces a revenue row with undefined deltas. -/
theorem C5_witness :
    (mkRow halfStore (some dA) (some dB) revSpec).d = none ∧
      (mkRow halfStore (some dA) (some dB) revSpec).dpct = none :=
  C5_missing_value_propagates halfStore (some dA) (some dB) revSpec
    (Or.inr rfl)

/-- Claim C6 (confirmed).  For every ratio metric with both raw values
defined, both are scaled by 100 before delta math, so the absolute delta
is the percentage-point difference of the scaled values. -/
theorem C6_point_difference (store : SeriesStore) (ld rd : Option String)
    (k : MetricSpec) (hk : k.asPct = true) (a b : ℚ)
    (ha : valAt store k.key ld = some a) (hb : valAt store k.key rd = some b) :
    (mkRow store ld rd k).d = some (b * 100 - a * 100) := by
  have hl : (mkRow store ld rd k).l = some (a * 100) := by
    rw [mkRow_l, hk, ha]; simp
  have hr : (mkRow store ld rd k).r = some (b * 100) := by
    rw [mkRow_r, hk, hb]; simp
  rw [mkRow_d, hl, hr, absDelta_some]

/-- Claim C6, witness: gross margin 0.400 to 0.425 gives an absolute
delta of 2.5 — not 0.025 and not 6.25. -/
theorem C6_witness :
    (mkRow gmUpStore (some dA) (some dB) gmSpec).d = some (5/2) ∧
      (5/2 : ℚ) ≠ 1/40 ∧ (5/2 : ℚ) ≠ 25/4 := by
  refine ⟨?_, by norm_num, by norm_num⟩
  rw [C6_point_difference gmUpStore (some dA) (some dB) gmSpec rfl
    (2/5) (17/40) rfl rfl]
  norm_num

/-- Claim C7 (confirmed).  For revenue 100 to 120, the absolute delta is
20, the percent delta is 20, and the narrative sentence is exactly
"Revenue increased 20.0% (+20), from 100 to 120.". -/
theorem C7_revenue_scenario :
    (mkRow revStore (some dA) (some dB) revSpec).d = some 20 ∧
      (mkRow revStore (some dA) (some dB) revSpec).dpct = some 20 ∧
      bullets revStore (some dA) (some dB) =
        ["Revenue increased 20.0% (+20), from 100 to 120."] :=
  ⟨by rw [revRow_eval], by rw [revRow_eval], bullets_revStore⟩

/-- Claim C8 (confirmed).  For every store, metric and pair of periods,
whenever the absolute delta is defined in both orientations the two
values are negations of each other. -/
theorem C8_abs_delta_antisymm (store : SeriesStore) (p1 p2 : Option String)
    (k : MetricSpec) (a b : ℚ) (h1 : (mkRow store p1 p2 k).d = some a)
    (h2 : (mkRow store p2 p1 k).d = some b) : a = -b := by
  rw [mkRow_d, mkRow_l, mkRow_r] at h1 h2
  exact absDelta_antisymm_core _ _ a b h1 h2

/-- Claim C8, witness: revenue 100/120 gives 20 and -20 in the two
orientations, while the percent delta is not antisymmetric (20 versus
-50/3). -/
theorem C8_witness :
    (20 : ℚ) = -(-20) ∧
      pctDelta (some 100) (some 120) ≠
        (pctDelta (some 120) (some 100)).map (fun x => -x) := by
  constructor
  · exact C8_abs_delta_antisymm revStore (some dA) (some dB) revSpec 20 (-20)
      (by rw [revRow_eval]) (by rw [revRow_eval_BA])
  · rw [pctDelta_some 100 120 (by norm_num),
      pctDelta_some 120 100 (by norm_num)]
    simp only [Option.map_some, ne_eq, Option.some.injEq]
    norm_num

/-- Claim C9 (confirmed).  Each derived margin of the ticker page is
undefined exactly when its numerator series is missing at the period, or
the revenue denominator is missing or zero; the derivations are total
functions on exact rationals, so they cannot throw or produce NaN or
Infinity. -/
theorem C9_margin_guards (store : SeriesStore) (dt : Option String) :
    (gmRatio store dt = none ↔
      valAt store "gross_profit" dt = none ∨
        valAt store "revenue" dt = none ∨
        valAt store "revenue" dt = some 0) ∧
    (opMargin store dt = none ↔
      valAt store "operating_income" dt = none ∨
        valAt store "revenue" dt = none ∨
        valAt store "revenue" dt = some 0) ∧
    (netMargin store dt = none ↔
      valAt store "net_income" dt = none ∨
        valAt store "revenue" dt = none ∨
        valAt store "revenue" dt = some 0) :=
  ⟨jsDivGuard_none_iff _ _, jsDivGuard_none_iff _ _, jsDivGuard_none_iff _ _⟩

/-- Claim C9, witness: with zero revenue the gross margin is undefined,
and with a missing net-income series the net margin is undefined. -/
theorem C9_witness :
    gmRatio tkStore (some dA) = none ∧ netMargin tkStore (some dA) = none :=
  ⟨(C9_margin_guards tkStore (some dA)).1.mpr (Or.inr (Or.inr rfl)),
   (C9_margin_guards tkStore (some dA)).2.2.mpr (Or.inl rfl)⟩

/-- Claim C10 (confirmed).  For every comparison row, if the percent
delta is defined then the absolute delta is defined as well, so the
narrative's unchecked uses of the absolute delta behind a percent-delta
guard can never see an undefined value. -/
theorem C10_dpct_defined_implies_d (store : SeriesStore)
    (ld rd : Option String) (k : MetricSpec)
    (h : ((mkRow store ld rd k).dpct).isSome = true) :
    ((mkRow store ld rd k).d).isSome = true := by
  rw [mkRow_dpct] at h
  rw [mkRow_d]
  cases hl : (mkRow store ld rd k).l with
  | none => rw [hl, pctDelta_left_none] at h; exact absurd h (by simp)
  | some lv =>
    cases hr : (mkRow store ld rd k).r with
    | none => rw [hr, pctDelta_right_none] at h; exact absurd h (by simp)
    | some rv => rfl

/-- Claim C10, witness at the revenue scenario. -/
theorem C10_witness :
    ((mkRow revStore (some dA) (some dB) revSpec).d).isSome = true :=
  C10_dpct_defined_implies_d revStore (some dA) (some dB) revSpec
    (by rw [revRow_eval]; rfl)
